import Mathlib

/-!
Verification of the HardyBot ticket assignment and notification-state
reconciliation core, shallowly embedded from the Python source
(`app/services/assignment.py`, `app/handlers/admin.py`,
`app/handlers/user.py`, `app/telegram_safe.py`).

The embedding follows the source:
  * ticket statuses are the `Status` string-enum of `app/enums.py`;
    the source's `ASSIGNED_STATUS = getattr(Status, "ASSIGNED", Status.IN_PROGRESS)`
    resolves to `IN_PROGRESS` because the enum has no `ASSIGNED` member;
  * the ticket store is keyed by the primary key `Task.id`, so the SQL
    conditional `UPDATE ... WHERE id = tid AND status = 'NEW' AND assignee_tg_id IS NULL`
    is a keyed conditional write reporting a rowcount;
  * the in-memory `InMemoryNotifications` registry is a pair of total maps
    with list / option values, mirroring the nested-dict class attributes;
  * Messaging-Gateway calls are best-effort: the functions record the calls
    they attempt (deletes, edits, sends) in an explicit trace, and take the
    gateway's distinguishable outcomes ("not modified", bad request, ...)
    as parameters, since the Python code branches on them via exceptions.
-/

namespace HardyBot

/-- The `Status` enum from `app/enums.py` (string enum; values are the member names). -/
inductive Status where
  | new
  | accepted
  | inProgress
  | closed
  | draft
deriving DecidableEq

/-- Alias `ASSIGNED_STATUS = getattr(Status, "ASSIGNED", Status.IN_PROGRESS)`:
the enum has no `ASSIGNED` member, so the alias is `IN_PROGRESS`. -/
def assignedStatus : Status := Status.inProgress

/-- Set `OPEN_STATUSES` from `app/services/assignment.py`: the set
`{NEW, ASSIGNED_STATUS, IN_PROGRESS, WAITING_STATUS, REOPENED_STATUS}`;
all three aliases resolve to `IN_PROGRESS`, so the set is `{NEW, IN_PROGRESS}`. -/
def openStatuses : List Status := [Status.new, Status.inProgress]

/-- The columns of the `Task` model (`app/models.py`) that the assignment core
reads or writes: primary key, category, status, assignee and close timestamp.
`assignee = none` embeds SQL `NULL` in `assignee_tg_id`. -/
structure Task where
  id : Nat
  category : String
  status : Status
  assignee : Option Nat
  closedAt : Option Nat
deriving DecidableEq

/-- The ticket store: rows of the `Task` table keyed by the primary key `id`. -/
def Store : Type := Nat → Option Task

/-- Function `_admin_name` over the dict `ADMIN_NAMES` (`app/services/assignment.py`): the dict
`{ARTUR_ID: "Артур", ANDREY_ID: "Андрей"}` with default "Администратор".
When the two configured ids coincide the later insertion wins, hence the
Andrey key is tested first. -/
def adminName (arturId andreyId uid : Nat) : String :=
  if uid = andreyId then "Андрей"
  else if uid = arturId then "Артур"
  else "Администратор"

/-- Category sets `ONLY_ARTUR`, `ONLY_ANDREY`, `BOTH` of
`app/services/assignment.py`. -/
def onlyArtur : List String := ["Компьютер", "Удаленка", "1С", "1C"]

def onlyAndrey : List String := ["Пропуск", "Доступ в дверь"]

def bothCats : List String := ["Интернет", "Мобильная связь", "Принтер", "ЭЦП", "Другое"]

/-- Function `_policy_for` (`app/services/assignment.py`): unknown categories fall
through to `"BOTH"`. -/
def policyFor (category : String) : String :=
  if category ∈ onlyArtur then "ARTUR"
  else if category ∈ onlyAndrey then "ANDREY"
  else if category ∈ bothCats then "BOTH"
  else "BOTH"

/-- Function `count_open_tasks` (`app/services/assignment.py`): SQL count of tasks with
`assignee_tg_id = aid` and status in `OPEN_STATUSES`, over the task table. -/
def countOpenTasks (tasks : List Task) (aid : Nat) : Nat :=
  (tasks.filter (fun t => t.assignee = some aid ∧ t.status ∈ openStatuses)).length

/-- Function `assign_by_category` (`app/services/assignment.py`, the variant wired into
`_finalize_ticket` of `app/handlers/user.py`): returns
`(notify_ids, assignee_id_or_None)` and sends nothing.  The Python guards
`if ARTUR_ID:` test integer truthiness, embedded as `≠ 0`; a missing admin id
makes its open count `999`. -/
def assignByCategory (arturId andreyId : Nat) (tasks : List Task)
    (category : String) : List Nat × Option Nat :=
  let policy := policyFor category
  if policy = "ARTUR" ∧ arturId ≠ 0 then ([arturId], some arturId)
  else if policy = "ANDREY" ∧ andreyId ≠ 0 then ([andreyId], some andreyId)
  else
    let aOpen := if arturId ≠ 0 then countOpenTasks tasks arturId else 999
    let kOpen := if andreyId ≠ 0 then countOpenTasks tasks andreyId else 999
    if arturId ≠ 0 ∧ andreyId ≠ 0 ∧ aOpen = kOpen then ([arturId, andreyId], none)
    else if arturId ≠ 0 ∧ (andreyId = 0 ∨ aOpen < kOpen) then ([arturId], none)
    else if andreyId ≠ 0 then ([andreyId], none)
    else ([], none)

/-- The ticket stored by `_finalize_ticket` (`app/handlers/user.py`): the row is
created with `status = Status.NEW.value` and then, before the commit, only
`task.assignee_tg_id = assignee` is written from the `assign_by_category`
result — the status is not touched. -/
def finalizeTicketStored (arturId andreyId : Nat) (tasks : List Task)
    (newId : Nat) (category : String) : Task :=
  let t0 : Task :=
    { id := newId, category := category, status := Status.new,
      assignee := none, closedAt := none }
  let r := assignByCategory arturId andreyId tasks category
  { t0 with assignee := r.2 }

/-- The spec's ticket invariant, stated from the spec's words:
"assignee is non-null if and only if status is not NEW". -/
def specTicketInvariant (t : Task) : Prop :=
  t.assignee ≠ none ↔ t.status ≠ Status.new

/-- Class `InMemoryNotifications` (`app/services/assignment.py`): the nested dict
`task_id -> admin_id -> List[(chat_id, message_id)]` is embedded as a total
map with default `[]`, and `task_id -> (user_chat_id, message_id)` as a total
map with default `none`. -/
structure Notifications where
  adminMsgs : Nat → Nat → List (Nat × Nat)
  userMsg : Nat → Option (Nat × Nat)

/-- Method `InMemoryNotifications.remember_admin`: append one location. -/
def rememberAdmin (nf : Notifications) (taskId adminId chatId messageId : Nat) :
    Notifications :=
  { nf with adminMsgs := fun t a =>
      if t = taskId ∧ a = adminId then nf.adminMsgs t a ++ [(chatId, messageId)]
      else nf.adminMsgs t a }

/-- Method `InMemoryNotifications.get_admin_msgs`: snapshot of the list. -/
def getAdminMsgs (nf : Notifications) (taskId adminId : Nat) : List (Nat × Nat) :=
  nf.adminMsgs taskId adminId

/-- Method `InMemoryNotifications.forget_admin`: drop the `(task, admin)` entry (the
Python also prunes the now-empty per-task dict, which is unobservable through
`get_admin_msgs`). -/
def forgetAdmin (nf : Notifications) (taskId adminId : Nat) : Notifications :=
  { nf with adminMsgs := fun t a =>
      if t = taskId ∧ a = adminId then [] else nf.adminMsgs t a }

/-- Method `InMemoryNotifications.forget_admin_all`: drop every admin's entries for
one task. -/
def forgetAdminAll (nf : Notifications) (taskId : Nat) : Notifications :=
  { nf with adminMsgs := fun t a => if t = taskId then [] else nf.adminMsgs t a }

/-- Method `InMemoryNotifications.remember_user`. -/
def rememberUser (nf : Notifications) (taskId chatId messageId : Nat) :
    Notifications :=
  { nf with userMsg := fun t =>
      if t = taskId then some (chatId, messageId) else nf.userMsg t }

/-- Method `InMemoryNotifications.get_user_msg`. -/
def getUserMsg (nf : Notifications) (taskId : Nat) : Option (Nat × Nat) :=
  nf.userMsg taskId

/-- Method `InMemoryNotifications.forget_user`. -/
def forgetUser (nf : Notifications) (taskId : Nat) : Notifications :=
  { nf with userMsg := fun t => if t = taskId then none else nf.userMsg t }

/-- Helper `_delete_admin_cards_if_any` (`app/services/assignment.py`), identical to
`_remove_task_card_if_any` (`app/handlers/admin.py`): fetch the remembered
locations, attempt a best-effort `delete_message` for each (failures are
swallowed), then `forget_admin`.  Returns the updated registry and the list of
attempted deletes. -/
def deleteAdminCardsIfAny (nf : Notifications) (taskId adminId : Nat) :
    Notifications × List (Nat × Nat) :=
  let infos := getAdminMsgs nf taskId adminId
  if infos = [] then (nf, [])
  else (forgetAdmin nf taskId adminId, infos)

/-- Helper `_notify_user_accepted` (`app/services/assignment.py`): if a user notice is
remembered, edit it in place; on `TelegramBadRequest` the notice is deleted
(best-effort) and forgotten, then a fresh message is sent (not remembered).
`editOk` is the gateway's outcome for the edit call.  Returns the updated
registry and the attempted deletes. -/
def notifyUserAccepted (nf : Notifications) (taskId : Nat) (editOk : Bool) :
    Notifications × List (Nat × Nat) :=
  match getUserMsg nf taskId with
  | some loc => if editOk then (nf, []) else (forgetUser nf taskId, [loc])
  | none => (nf, [])

/-- The conditional claim `UPDATE` of `admin_try_claim_task`
(`app/services/assignment.py`, same statement in `cb_accept` of
`app/handlers/admin.py`):
`UPDATE Task SET status = ASSIGNED_STATUS, assignee_tg_id = admin
 WHERE id = taskId AND status = 'NEW' AND assignee_tg_id IS NULL`,
returning the new table and the rowcount. -/
def claimUpdate (store : Store) (taskId adminTgId : Nat) : Store × Nat :=
  match store taskId with
  | some t =>
      if t.status = Status.new ∧ t.assignee = none then
        (fun i => if i = taskId then
            some { t with status := assignedStatus, assignee := some adminTgId }
          else store i, 1)
      else (store, 0)
  | none => (store, 0)

/-- Result of `admin_try_claim_task`: the committed store, the notification
registry, the returned pair `(success, name)` and the attempted message
deletions (the retraction side effects). -/
structure ClaimResult where
  store : Store
  notif : Notifications
  ok : Bool
  name : Option String
  deletes : List (Nat × Nat)

/-- Function `admin_try_claim_task` (`app/services/assignment.py`): one atomic
conditional update; on rowcount > 0, delete the cards of both admins (each
guarded by `if admin_id:`), re-read the task and notify the user; on rowcount
0, re-read and report the current assignee's display name (`None` when the
task is missing or its `assignee_tg_id` is falsy). -/
def adminTryClaimTask (arturId andreyId : Nat) (userEditOk : Bool)
    (store : Store) (nf : Notifications) (taskId adminTgId : Nat) : ClaimResult :=
  let upd := claimUpdate store taskId adminTgId
  if upd.2 > 0 then
    let step1 := if arturId ≠ 0 then deleteAdminCardsIfAny nf taskId arturId else (nf, [])
    let step2 :=
      if andreyId ≠ 0 then deleteAdminCardsIfAny step1.1 taskId andreyId
      else (step1.1, [])
    let step3 :=
      match upd.1 taskId with
      | some _ => notifyUserAccepted step2.1 taskId userEditOk
      | none => (step2.1, [])
    { store := upd.1, notif := step3.1, ok := true,
      name := some (adminName arturId andreyId adminTgId),
      deletes := step1.2 ++ step2.2 ++ step3.2 }
  else
    match store taskId with
    | none =>
        { store := store, notif := nf, ok := false, name := none, deletes := [] }
    | some t =>
        match t.assignee with
        | none =>
            { store := store, notif := nf, ok := false, name := none, deletes := [] }
        | some w =>
            if w = 0 then
              { store := store, notif := nf, ok := false, name := none, deletes := [] }
            else
              { store := store, notif := nf, ok := false,
                name := some (adminName arturId andreyId w), deletes := [] }

/-- Function `admin_hide_task_card` (`app/services/assignment.py`): just
`_delete_admin_cards_if_any` for that one admin. -/
def adminHideTaskCard (nf : Notifications) (taskId adminTgId : Nat) :
    Notifications × List (Nat × Nat) :=
  deleteAdminCardsIfAny nf taskId adminTgId

/-- Handler `cb_done` (`app/handlers/admin.py`), the store mutation only: look the task
up; if absent answer "not found"; otherwise unconditionally set
`assignee_tg_id` to the caller and `status` to `CLOSED`, and set `closed_at`
only when it is still `NULL`. -/
def cbDone (store : Store) (callerId taskId now : Nat) : Store × Bool :=
  match store taskId with
  | none => (store, false)
  | some t =>
      let t' : Task :=
        { t with
          assignee := some callerId,
          status := Status.closed,
          closedAt := (match t.closedAt with | none => some now | some c => some c) }
      (fun i => if i = taskId then some t' else store i, true)

/-- Outcome of the gateway's `edit_message_text` call as `_show_anchor`
(`app/handlers/admin.py`) distinguishes it: success, `TelegramBadRequest`
whose text contains "message is not modified", or any other
`TelegramBadRequest`. -/
inductive EditOutcome where
  | ok
  | notModified
  | badOther
deriving DecidableEq

/-- The gateway behaviour one `_show_anchor` call observes: the outcome of the
`edit_message_text` attempt, whether the keyboard-only
`edit_message_reply_markup` retry succeeds, and the message id the gateway
assigns to a freshly sent message. -/
structure GatewayBehavior where
  editTextOutcome : EditOutcome
  editMarkupOk : Bool
  newMsgId : Nat
deriving DecidableEq

/-- One Messaging-Gateway call attempted by `_show_anchor`, in order. -/
inductive AnchorAction where
  | editText (chatId messageId : Nat)
  | editMarkup (chatId messageId : Nat)
  | deleteMsg (chatId messageId : Nat)
  | sendMsg (chatId messageId : Nat)
deriving DecidableEq

/-- Renderer `_show_anchor` (`app/handlers/admin.py`): try to edit the existing anchor
in place; on "message is not modified" retry just the keyboard and on success
keep the id; on any remaining failure best-effort delete the stale anchor and
send a new message, returning its id.  With no previous anchor, send directly.
Returns the new anchor id together with the ordered trace of attempted
gateway calls. -/
def showAnchor (gw : GatewayBehavior) (chatId : Nat) (anchorId : Option Nat) :
    Nat × List AnchorAction :=
  match anchorId with
  | some aid =>
    match gw.editTextOutcome with
    | EditOutcome.ok => (aid, [AnchorAction.editText chatId aid])
    | EditOutcome.notModified =>
        if gw.editMarkupOk then
          (aid, [AnchorAction.editText chatId aid, AnchorAction.editMarkup chatId aid])
        else
          (gw.newMsgId,
            [AnchorAction.editText chatId aid, AnchorAction.editMarkup chatId aid,
             AnchorAction.deleteMsg chatId aid, AnchorAction.sendMsg chatId gw.newMsgId])
    | EditOutcome.badOther =>
        (gw.newMsgId,
          [AnchorAction.editText chatId aid, AnchorAction.deleteMsg chatId aid,
           AnchorAction.sendMsg chatId gw.newMsgId])
  | none => (gw.newMsgId, [AnchorAction.sendMsg chatId gw.newMsgId])

/-- A sequence of `_show_anchor` calls on one chat, threading the recorded
anchor exactly as the callers do (`ADMIN_ANCHOR[admin_id] = new_id` after each
call, e.g. `_show_admin_panel` / `_show_my_tasks`).  Each list entry is the
anchor recorded before the call, the id the call returns (and records), and
the call's gateway trace. -/
def anchorCalls (chatId : Nat) :
    Option Nat → List GatewayBehavior → List (Option Nat × Nat × List AnchorAction)
  | _, [] => []
  | st, gw :: rest =>
      let r := showAnchor gw chatId st
      (st, r) :: anchorCalls chatId (some r.1) rest

/-- The trace retracts the old anchor `a` before the new message becomes
current: some attempted `delete_message` of `a` precedes the `send_message`
that produced `nid`. -/
def retractsThenSends (chatId a nid : Nat) : List AnchorAction → Prop
  | [] => False
  | AnchorAction.deleteMsg c m :: rest =>
      (c = chatId ∧ m = a ∧ AnchorAction.sendMsg chatId nid ∈ rest) ∨
        retractsThenSends chatId a nid rest
  | _ :: rest => retractsThenSends chatId a nid rest

/-- The distinguishable failure classes of one Telegram call, as
`call_with_retry` (`app/telegram_safe.py`) catches them: success,
`TelegramRetryAfter` with a server-suggested wait, `TelegramForbiddenError`,
a "noisy" `TelegramBadRequest` (message not modified / not found, ...), any
other `TelegramBadRequest`, `TelegramNetworkError`, or an unexpected
exception. -/
inductive TgOutcome where
  | success (msgId : Nat)
  | retryAfter (wait : Nat)
  | forbidden
  | badRequestNoisy
  | badRequestOther
  | networkError
  | unexpectedError
deriving DecidableEq

/-- One sleep performed by `call_with_retry`: the server-suggested
`retry_after` wait, or the exponential `_backoff_sleep` before a retry. -/
inductive SleepEv where
  | serverWait (w : Nat)
  | backoff (attempt : Nat)
deriving DecidableEq

/-- The loop body of `call_with_retry` (`app/telegram_safe.py`): `outcome n`
is what the `n`-th call of `coro_factory` does.  Returns the result (`none`
means the operation was abandoned without raising), the number of the last
attempt performed, and the ordered sleeps.  `fuel` only bounds the recursion;
`callWithRetry` supplies `maxAttempts`, which the `attempt > max_attempts`
exit makes sufficient. -/
def callWithRetryAux (outcome : Nat → TgOutcome) (maxAttempts : Nat) :
    Nat → Nat → Option Nat × Nat × List SleepEv
  | attempt, 0 => (none, attempt, [])
  | attempt, fuel + 1 =>
    match outcome attempt with
    | TgOutcome.success v => (some v, attempt, [])
    | TgOutcome.forbidden => (none, attempt, [])
    | TgOutcome.badRequestNoisy => (none, attempt, [])
    | TgOutcome.retryAfter w =>
        if maxAttempts < attempt + 1 then (none, attempt, [SleepEv.serverWait w])
        else
          let r := callWithRetryAux outcome maxAttempts (attempt + 1) fuel
          (r.1, r.2.1, SleepEv.serverWait w :: SleepEv.backoff (attempt + 1) :: r.2.2)
    | TgOutcome.badRequestOther =>
        if maxAttempts < attempt + 1 then (none, attempt, [])
        else
          let r := callWithRetryAux outcome maxAttempts (attempt + 1) fuel
          (r.1, r.2.1, SleepEv.backoff (attempt + 1) :: r.2.2)
    | TgOutcome.networkError =>
        if maxAttempts < attempt + 1 then (none, attempt, [])
        else
          let r := callWithRetryAux outcome maxAttempts (attempt + 1) fuel
          (r.1, r.2.1, SleepEv.backoff (attempt + 1) :: r.2.2)
    | TgOutcome.unexpectedError =>
        if maxAttempts < attempt + 1 then (none, attempt, [])
        else
          let r := callWithRetryAux outcome maxAttempts (attempt + 1) fuel
          (r.1, r.2.1, SleepEv.backoff (attempt + 1) :: r.2.2)

/-- Function `call_with_retry` with its loop started at `attempt = 1`; the Python
default is `max_attempts = 5`. -/
def callWithRetry (outcome : Nat → TgOutcome) (maxAttempts : Nat) :
    Option Nat × Nat × List SleepEv :=
  callWithRetryAux outcome maxAttempts 1 maxAttempts

/-- The `max_attempts` default of `call_with_retry`. -/
def maxAttemptsDefault : Nat := 5

/-! ## Helper lemmas shared across the claims -/

/-- Helper `_delete_admin_cards_if_any` leaves the `(task, admin)` slot it targets
empty and every other slot untouched. -/
theorem deleteCards_getAdminMsgs (nf : Notifications) (taskId adminId t' a' : Nat) :
    getAdminMsgs (deleteAdminCardsIfAny nf taskId adminId).1 t' a' =
      if t' = taskId ∧ a' = adminId then [] else getAdminMsgs nf t' a' := by
  unfold deleteAdminCardsIfAny
  by_cases h : getAdminMsgs nf taskId adminId = []
  · rw [if_pos h]
    by_cases hc : t' = taskId ∧ a' = adminId
    · rw [if_pos hc, hc.1, hc.2]
      exact h
    · rw [if_neg hc]
  · rw [if_neg h]
    simp only [getAdminMsgs, forgetAdmin]

/-- Helper `_notify_user_accepted` never touches the admin part of the registry. -/
theorem notifyUser_getAdminMsgs (nf : Notifications) (taskId : Nat) (editOk : Bool)
    (t' a' : Nat) :
    getAdminMsgs (notifyUserAccepted nf taskId editOk).1 t' a' =
      getAdminMsgs nf t' a' := by
  unfold notifyUserAccepted
  cases h : getUserMsg nf taskId with
  | none => rfl
  | some loc => cases editOk <;> rfl

/-- The conditional claim update on a `NEW`, unassigned row: rowcount 1 and
the row rewritten to `ASSIGNED`/claimant. -/
theorem claimUpdate_success (store : Store) (tid x : Nat) (t : Task)
    (hstore : store tid = some t) (hnew : t.status = Status.new)
    (hun : t.assignee = none) :
    claimUpdate store tid x =
      (fun i => if i = tid then
          some { t with status := assignedStatus, assignee := some x }
        else store i, 1) := by
  have h1 : claimUpdate store tid x =
      if t.status = Status.new ∧ t.assignee = none then
        (fun i => if i = tid then
            some { t with status := assignedStatus, assignee := some x }
          else store i, 1)
      else (store, 0) := by
    unfold claimUpdate
    rw [hstore]
  rw [h1, if_pos ⟨hnew, hun⟩]

/-- The conditional claim update on a row that already has an assignee:
rowcount 0 and the table unchanged. -/
theorem claimUpdate_already_assigned (store : Store) (tid x w : Nat) (t : Task)
    (hstore : store tid = some t) (hw : t.assignee = some w) :
    claimUpdate store tid x = (store, 0) := by
  have h1 : claimUpdate store tid x =
      if t.status = Status.new ∧ t.assignee = none then
        (fun i => if i = tid then
            some { t with status := assignedStatus, assignee := some x }
          else store i, 1)
      else (store, 0) := by
    unfold claimUpdate
    rw [hstore]
  rw [h1, if_neg]
  intro hc
  rw [hw] at hc
  exact Option.noConfusion hc.2

/-- Function `admin_try_claim_task` on a `NEW`, unassigned ticket: the success branch,
fully characterised. -/
theorem tryClaim_success (arturId andreyId : Nat) (userEditOk : Bool)
    (store : Store) (nf : Notifications) (tid x : Nat) (t : Task)
    (hstore : store tid = some t) (hnew : t.status = Status.new)
    (hun : t.assignee = none) :
    (adminTryClaimTask arturId andreyId userEditOk store nf tid x).ok = true ∧
    (adminTryClaimTask arturId andreyId userEditOk store nf tid x).name =
      some (adminName arturId andreyId x) ∧
    (adminTryClaimTask arturId andreyId userEditOk store nf tid x).store =
      (fun i => if i = tid then
          some { t with status := assignedStatus, assignee := some x }
        else store i) ∧
    (arturId ≠ 0 →
      getAdminMsgs (adminTryClaimTask arturId andreyId userEditOk store nf tid x).notif
        tid arturId = []) ∧
    (andreyId ≠ 0 →
      getAdminMsgs (adminTryClaimTask arturId andreyId userEditOk store nf tid x).notif
        tid andreyId = []) := by
  have hq := claimUpdate_success store tid x t hstore hnew hun
  simp only [adminTryClaimTask, hq, gt_iff_lt, zero_lt_one, if_true, eq_self_iff_true]
  refine ⟨trivial, trivial, trivial, ?_, ?_⟩
  · intro hA
    rw [notifyUser_getAdminMsgs]
    by_cases hK : andreyId ≠ 0
    · rw [if_pos hK, deleteCards_getAdminMsgs]
      by_cases hAK : tid = tid ∧ arturId = andreyId
      · rw [if_pos hAK]
      · rw [if_neg hAK, if_pos hA, deleteCards_getAdminMsgs, if_pos ⟨rfl, rfl⟩]
    · rw [if_neg hK]
      dsimp only
      rw [if_pos hA, deleteCards_getAdminMsgs, if_pos ⟨rfl, rfl⟩]
  · intro hK
    rw [notifyUser_getAdminMsgs, if_pos hK, deleteCards_getAdminMsgs, if_pos ⟨rfl, rfl⟩]

/-- Function `admin_try_claim_task` on a ticket already assigned to `w ≠ 0`: the failure
branch reports the current assignee's display name and changes nothing. -/
theorem tryClaim_already_assigned (arturId andreyId : Nat) (userEditOk : Bool)
    (store : Store) (nf : Notifications) (tid x w : Nat) (t : Task)
    (hstore : store tid = some t) (hw : t.assignee = some w) (hw0 : w ≠ 0) :
    adminTryClaimTask arturId andreyId userEditOk store nf tid x =
      { store := store, notif := nf, ok := false,
        name := some (adminName arturId andreyId w), deletes := [] } := by
  have hq := claimUpdate_already_assigned store tid x w t hstore hw
  simp only [adminTryClaimTask, hq, gt_iff_lt, Nat.lt_irrefl, if_false, hstore, hw]
  rw [if_neg hw0]

/-! ## The claims -/

/-- C3: the spec's invariant says a stored ticket's assignee is non-null only
when its status is not `NEW`, and in particular dispatching a ticket of an
exclusively-routed category must not leave a `NEW` ticket with an assignee.
The wired dispatch path (`_finalize_ticket` calling `assign_by_category`)
violates this: with `ARTUR_ID = 1`, `ANDREY_ID = 2` and category
"Компьютер" (exclusive-Artur), the committed ticket still has status `NEW`
while its assignee is Artur, so the invariant fails. -/
theorem C3_dispatch_stores_assigned_new_ticket :
    (finalizeTicketStored 1 2 [] 42 "Компьютер").status = Status.new ∧
    (finalizeTicketStored 1 2 [] 42 "Компьютер").assignee = some 1 ∧
    ¬ specTicketInvariant (finalizeTicketStored 1 2 [] 42 "Компьютер") := by
  refine ⟨rfl, rfl, ?_⟩
  intro h
  have := h.mp (by decide)
  exact this rfl

/-- C6: calling `_show_anchor` with text and keyboard identical to the current
anchor, so that both gateway edit calls fail with "message is not modified"
(the text edit, and then the keyboard-only retry), does not keep the anchor:
the code falls through to deleting the old anchor (id 10 in chat 7) and
sending a new message, returning the fresh id 11 — contradicting the claim
that the call returns the same id with no delete and no send. -/
theorem C6_not_modified_falls_back_to_resend :
    showAnchor { editTextOutcome := EditOutcome.notModified,
                 editMarkupOk := false, newMsgId := 11 } 7 (some 10) =
      (11, [AnchorAction.editText 7 10, AnchorAction.editMarkup 7 10,
            AnchorAction.deleteMsg 7 10, AnchorAction.sendMsg 7 11]) ∧
    (showAnchor { editTextOutcome := EditOutcome.notModified,
                  editMarkupOk := false, newMsgId := 11 } 7 (some 10)).1 ≠ 10 ∧
    AnchorAction.deleteMsg 7 10 ∈
      (showAnchor { editTextOutcome := EditOutcome.notModified,
                    editMarkupOk := false, newMsgId := 11 } 7 (some 10)).2 ∧
    AnchorAction.sendMsg 7 11 ∈
      (showAnchor { editTextOutcome := EditOutcome.notModified,
                    editMarkupOk := false, newMsgId := 11 } 7 (some 10)).2 := by
  refine ⟨rfl, by decide, by decide, by decide⟩

/-- C10: retracting admin `a`'s cards for ticket `t` (`forget_admin`, and the
`_delete_admin_cards_if_any` / `admin_hide_task_card` helpers built on it)
clears only the `(t, a)` ledger slot: any other `(ticket, staff)` slot and the
per-ticket user-notice record are unchanged. -/
theorem C10_forget_admin_frame (nf : Notifications) (t a t' a' : Nat)
    (h : t' ≠ t ∨ a' ≠ a) :
    getAdminMsgs (forgetAdmin nf t a) t' a' = getAdminMsgs nf t' a' ∧
    (∀ u, getUserMsg (forgetAdmin nf t a) u = getUserMsg nf u) ∧
    getAdminMsgs (deleteAdminCardsIfAny nf t a).1 t' a' = getAdminMsgs nf t' a' ∧
    (∀ u, getUserMsg (deleteAdminCardsIfAny nf t a).1 u = getUserMsg nf u) ∧
    getAdminMsgs (adminHideTaskCard nf t a).1 t' a' = getAdminMsgs nf t' a' ∧
    (∀ u, getUserMsg (adminHideTaskCard nf t a).1 u = getUserMsg nf u) := by
  have hc : ¬ (t' = t ∧ a' = a) := by
    intro hc
    rcases h with h | h
    · exact h hc.1
    · exact h hc.2
  have hforget : getAdminMsgs (forgetAdmin nf t a) t' a' = getAdminMsgs nf t' a' := by
    simp only [getAdminMsgs, forgetAdmin]
    rw [if_neg hc]
  have hdel : getAdminMsgs (deleteAdminCardsIfAny nf t a).1 t' a' =
      getAdminMsgs nf t' a' := by
    rw [deleteCards_getAdminMsgs, if_neg hc]
  have huser : ∀ u, getUserMsg (deleteAdminCardsIfAny nf t a).1 u = getUserMsg nf u := by
    intro u
    unfold deleteAdminCardsIfAny
    by_cases hl : getAdminMsgs nf t a = []
    · rw [if_pos hl]
    · rw [if_neg hl]
      rfl
  exact ⟨hforget, fun u => rfl, hdel, huser, hdel, huser⟩

/-- C2 counterexample: with `ARTUR_ID = 1`, `ANDREY_ID = 2` and a task table
in which Andrey has one open ticket and Artur none, the "both" category
"Интернет" is routed to Artur alone — not to the full roster — so the
decision is *not* independent of the per-staff open-ticket counts. -/
theorem C2_counterexample_counts_matter :
    assignByCategory 1 2
        [{ id := 5, category := "Принтер", status := Status.inProgress,
           assignee := some 2, closedAt := none }] "Интернет" = ([1], none) ∧
    assignByCategory 1 2
        [{ id := 5, category := "Принтер", status := Status.inProgress,
           assignee := some 2, closedAt := none }] "Интернет" ≠ ([1, 2], none) := by
  refine ⟨rfl, by decide⟩

/-! ## Concrete fixtures used by the witnesses -/

/-- An empty notification registry. -/
def sampleNf : Notifications :=
  { adminMsgs := fun _ _ => [], userMsg := fun _ => none }

/-- A registry with remembered admin cards everywhere and a user notice for
ticket 1. -/
def sampleNfFull : Notifications :=
  { adminMsgs := fun t a => if t = 1 ∧ a = 1 then [(1, 5), (1, 6)] else [(7, 8)],
    userMsg := fun t => if t = 1 then some (9, 3) else none }

/-- A store holding one `NEW`, unassigned ticket with id 1. -/
def newTicketStore : Store := fun i =>
  if i = 1 then
    some { id := 1, category := "Интернет", status := Status.new,
           assignee := none, closedAt := none }
  else none

/-- A store holding one ticket with id 1 already assigned to admin 1. -/
def claimedTicketStore : Store := fun i =>
  if i = 1 then
    some { id := 1, category := "Интернет", status := Status.inProgress,
           assignee := some 1, closedAt := none }
  else none

/-- A store holding one `CLOSED` ticket with id 1, assigned to admin 1 and
closed at time 5. -/
def closedTicketStore : Store := fun i =>
  if i = 1 then
    some { id := 1, category := "Принтер", status := Status.closed,
           assignee := some 1, closedAt := some 5 }
  else none

/-- C1: for a stored ticket in status `NEW` with no assignee, two `try_claim`
operations with different claimants, serialized by the store, resolve so that
the first conditional update succeeds and the second fails; the loser is given
the winner's display name, and afterwards the stored ticket is `ASSIGNED`
(the source's `IN_PROGRESS` alias) with the winner as its only assignee. -/
theorem C1_claim_exclusivity (arturId andreyId : Nat) (e1 e2 : Bool)
    (store : Store) (nf : Notifications) (tid x y : Nat) (t : Task)
    (hstore : store tid = some t) (hnew : t.status = Status.new)
    (hun : t.assignee = none) (_hxy : x ≠ y) (hx0 : x ≠ 0) :
    (adminTryClaimTask arturId andreyId e1 store nf tid x).ok = true ∧
    (adminTryClaimTask arturId andreyId e2
        (adminTryClaimTask arturId andreyId e1 store nf tid x).store
        (adminTryClaimTask arturId andreyId e1 store nf tid x).notif tid y).ok = false ∧
    (adminTryClaimTask arturId andreyId e2
        (adminTryClaimTask arturId andreyId e1 store nf tid x).store
        (adminTryClaimTask arturId andreyId e1 store nf tid x).notif tid y).name =
      some (adminName arturId andreyId x) ∧
    (adminTryClaimTask arturId andreyId e2
        (adminTryClaimTask arturId andreyId e1 store nf tid x).store
        (adminTryClaimTask arturId andreyId e1 store nf tid x).notif tid y).store tid =
      some { t with status := assignedStatus, assignee := some x } := by
  obtain ⟨hok1, hname1, hstore1, hpa, hpk⟩ :=
    tryClaim_success arturId andreyId e1 store nf tid x t hstore hnew hun
  have hread := congrFun hstore1 tid
  rw [if_pos rfl] at hread
  have h2 := tryClaim_already_assigned arturId andreyId e2
    (adminTryClaimTask arturId andreyId e1 store nf tid x).store
    (adminTryClaimTask arturId andreyId e1 store nf tid x).notif tid y x
    { t with status := assignedStatus, assignee := some x } hread rfl hx0
  refine ⟨hok1, ?_, ?_, ?_⟩
  · rw [h2]
  · rw [h2]
  · rw [h2]
    exact hread

/-- C1 witness: admins 1 and 2, one `NEW` ticket with id 1, empty registry;
admin 1 then admin 2 try to claim it. -/
theorem C1_claim_exclusivity_witness :
    (adminTryClaimTask 1 2 true newTicketStore sampleNf 1 1).ok = true ∧
    (adminTryClaimTask 1 2 true
        (adminTryClaimTask 1 2 true newTicketStore sampleNf 1 1).store
        (adminTryClaimTask 1 2 true newTicketStore sampleNf 1 1).notif 1 2).ok = false ∧
    (adminTryClaimTask 1 2 true
        (adminTryClaimTask 1 2 true newTicketStore sampleNf 1 1).store
        (adminTryClaimTask 1 2 true newTicketStore sampleNf 1 1).notif 1 2).name =
      some (adminName 1 2 1) ∧
    (adminTryClaimTask 1 2 true
        (adminTryClaimTask 1 2 true newTicketStore sampleNf 1 1).store
        (adminTryClaimTask 1 2 true newTicketStore sampleNf 1 1).notif 1 2).store 1 =
      some { id := 1, category := "Интернет", status := assignedStatus,
             assignee := some 1, closedAt := none } :=
  C1_claim_exclusivity 1 2 true true newTicketStore sampleNf 1 1 2
    { id := 1, category := "Интернет", status := Status.new,
      assignee := none, closedAt := none }
    rfl rfl rfl (by decide) (by decide)

/-- C4: a second `try_claim` by the claimant `x` who already owns the ticket
returns normally with the generic failure outcome carrying `x`'s own display
name — identifying the ticket as already theirs, and distinguishable from a
loss to any claimant whose display name differs — and performs no retraction
side effects: the registry, the store and the attempted-delete list are
untouched. -/
theorem C4_reclaim_already_yours (arturId andreyId : Nat) (userEditOk : Bool)
    (store : Store) (nf : Notifications) (tid x : Nat) (t : Task)
    (hstore : store tid = some t) (hx : t.assignee = some x) (hx0 : x ≠ 0) :
    adminTryClaimTask arturId andreyId userEditOk store nf tid x =
      { store := store, notif := nf, ok := false,
        name := some (adminName arturId andreyId x), deletes := [] } ∧
    (∀ y, adminName arturId andreyId y ≠ adminName arturId andreyId x →
      (adminTryClaimTask arturId andreyId userEditOk store nf tid x).name ≠
        some (adminName arturId andreyId y)) := by
  have h := tryClaim_already_assigned arturId andreyId userEditOk store nf tid x x t
    hstore hx hx0
  refine ⟨h, ?_⟩
  intro y hy hcontra
  rw [h] at hcontra
  exact hy (Option.some.inj hcontra).symm

/-- C4 witness: admin 1 re-claims ticket 1 it already owns; the registry still
holds cards, and none are touched. -/
theorem C4_reclaim_already_yours_witness :
    adminTryClaimTask 1 2 true claimedTicketStore sampleNfFull 1 1 =
      { store := claimedTicketStore, notif := sampleNfFull, ok := false,
        name := some (adminName 1 2 1), deletes := [] } ∧
    (∀ y, adminName 1 2 y ≠ adminName 1 2 1 →
      (adminTryClaimTask 1 2 true claimedTicketStore sampleNfFull 1 1).name ≠
        some (adminName 1 2 y)) :=
  C4_reclaim_already_yours 1 2 true claimedTicketStore sampleNfFull 1 1
    { id := 1, category := "Интернет", status := Status.inProgress,
      assignee := some 1, closedAt := none }
    rfl rfl (by decide)

/-- C5: after a successful `try_claim` on a `NEW`, unassigned ticket, the
ledger list for that ticket is empty for every staff member on the (non-zero)
roster — the winner included — whatever entries had accumulated. -/
theorem C5_ledger_empty_after_claim (arturId andreyId : Nat) (userEditOk : Bool)
    (store : Store) (nf : Notifications) (tid x : Nat) (t : Task)
    (hstore : store tid = some t) (hnew : t.status = Status.new)
    (hun : t.assignee = none) (hA : arturId ≠ 0) (hK : andreyId ≠ 0) :
    (adminTryClaimTask arturId andreyId userEditOk store nf tid x).ok = true ∧
    (∀ a, a = arturId ∨ a = andreyId →
      getAdminMsgs (adminTryClaimTask arturId andreyId userEditOk store nf tid x).notif
        tid a = []) := by
  obtain ⟨hok, _, _, hpa, hpk⟩ :=
    tryClaim_success arturId andreyId userEditOk store nf tid x t hstore hnew hun
  refine ⟨hok, ?_⟩
  intro a ha
  rcases ha with h | h
  · rw [h]
    exact hpa hA
  · rw [h]
    exact hpk hK

/-- C5 witness: admin 1 claims ticket 1 while both admins still hold cards for
it; both ledger slots come back empty. -/
theorem C5_ledger_empty_after_claim_witness :
    (adminTryClaimTask 1 2 true newTicketStore sampleNfFull 1 1).ok = true ∧
    (∀ a, a = 1 ∨ a = 2 →
      getAdminMsgs (adminTryClaimTask 1 2 true newTicketStore sampleNfFull 1 1).notif
        1 a = []) :=
  C5_ledger_empty_after_claim 1 2 true newTicketStore sampleNfFull 1 1
    { id := 1, category := "Интернет", status := Status.new,
      assignee := none, closedAt := none }
    rfl rfl rfl (by decide) (by decide)

/-- C2 (amended): for a non-zero roster, an exclusive-category ticket is
routed to (and immediately assigned to) its single staff member; a "both" or
unknown category yields no immediate assignee, but — contrary to the claim's
"unconditionally the full roster" — the notified set depends on the open
counts: both staff when their open-ticket counts are equal, otherwise only
the less-loaded one. -/
theorem C2_amended_policy_routing (arturId andreyId : Nat) (tasks : List Task)
    (cat : String) (hA : arturId ≠ 0) (hK : andreyId ≠ 0) :
    (cat ∈ onlyArtur →
      assignByCategory arturId andreyId tasks cat = ([arturId], some arturId)) ∧
    (cat ∉ onlyArtur → cat ∈ onlyAndrey →
      assignByCategory arturId andreyId tasks cat = ([andreyId], some andreyId)) ∧
    (cat ∉ onlyArtur → cat ∉ onlyAndrey →
      ((countOpenTasks tasks arturId = countOpenTasks tasks andreyId →
          assignByCategory arturId andreyId tasks cat = ([arturId, andreyId], none)) ∧
       (countOpenTasks tasks arturId < countOpenTasks tasks andreyId →
          assignByCategory arturId andreyId tasks cat = ([arturId], none)) ∧
       (countOpenTasks tasks andreyId < countOpenTasks tasks arturId →
          assignByCategory arturId andreyId tasks cat = ([andreyId], none)))) := by
  refine ⟨?_, ?_, ?_⟩
  · intro hca
    have hp : policyFor cat = "ARTUR" := by
      unfold policyFor
      rw [if_pos hca]
    simp [assignByCategory, hp, hA]
  · intro hna hck
    have hp : policyFor cat = "ANDREY" := by
      unfold policyFor
      rw [if_neg hna, if_pos hck]
    simp [assignByCategory, hp, hK]
  · intro hna hnk
    have hp : policyFor cat = "BOTH" := by
      unfold policyFor
      rw [if_neg hna, if_neg hnk]
      by_cases hcb : cat ∈ bothCats
      · rw [if_pos hcb]
      · rw [if_neg hcb]
    have hba : ("BOTH" : String) ≠ "ARTUR" := by decide
    have hbk : ("BOTH" : String) ≠ "ANDREY" := by decide
    refine ⟨?_, ?_, ?_⟩
    · intro hcnt
      simp [assignByCategory, hp, hba, hbk, hA, hK, hcnt]
    · intro hlt
      simp [assignByCategory, hp, hba, hbk, hA, hK, Nat.ne_of_lt hlt, hlt]
    · intro hgt
      simp [assignByCategory, hp, hba, hbk, hA, hK, Nat.ne_of_gt hgt, Nat.lt_asymm hgt]
  
/-- C2 witness: admins 1 and 2, empty task table (equal open counts 0 = 0). -/
theorem C2_amended_policy_routing_witness :
    ("Компьютер" ∈ onlyArtur →
      assignByCategory 1 2 [] "Компьютер" = ([1], some 1)) ∧
    ("Компьютер" ∉ onlyArtur → "Компьютер" ∈ onlyAndrey →
      assignByCategory 1 2 [] "Компьютер" = ([2], some 2)) ∧
    ("Компьютер" ∉ onlyArtur → "Компьютер" ∉ onlyAndrey →
      ((countOpenTasks [] 1 = countOpenTasks [] 2 →
          assignByCategory 1 2 [] "Компьютер" = ([1, 2], none)) ∧
       (countOpenTasks [] 1 < countOpenTasks [] 2 →
          assignByCategory 1 2 [] "Компьютер" = ([1], none)) ∧
       (countOpenTasks [] 2 < countOpenTasks [] 1 →
          assignByCategory 1 2 [] "Компьютер" = ([2], none)))) :=
  C2_amended_policy_routing 1 2 [] "Компьютер" (by decide) (by decide)

/-- C8 counterexample: ticket 1 is already `CLOSED` and assigned to admin 1
(closed at time 5); a `cb_done` by admin 2 reassigns the closed ticket to
admin 2, so the close operation does mutate an already-`CLOSED` ticket,
contrary to the claim. -/
theorem C8_counterexample_done_reassigns_closed :
    (cbDone closedTicketStore 2 1 10).1 1 =
      some { id := 1, category := "Принтер", status := Status.closed,
             assignee := some 2, closedAt := some 5 } ∧
    (cbDone closedTicketStore 2 1 10).1 1 ≠ closedTicketStore 1 := by
  refine ⟨rfl, by decide⟩

/-- C8 (amended): the stored status only moves forward — `cb_done` always
lands on `CLOSED` — and on an already-`CLOSED` ticket with a recorded close
timestamp the operation preserves the status and the timestamp; but it does
overwrite the assignee with the caller. -/
theorem C8_amended_done_on_closed (store : Store) (caller tid now : Nat)
    (t : Task) (c : Nat) (hstore : store tid = some t)
    (_hclosed : t.status = Status.closed) (hc : t.closedAt = some c) :
    (cbDone store caller tid now).1 tid =
      some { t with
             assignee := some caller,
             status := Status.closed,
             closedAt := some c } ∧
    (cbDone store caller tid now).2 = true := by
  have h1 : cbDone store caller tid now =
      (fun i => if i = tid then
          some { t with
            assignee := some caller,
            status := Status.closed,
            closedAt := (match t.closedAt with | none => some now | some c' => some c') }
        else store i, true) := by
    unfold cbDone
    rw [hstore]
  constructor
  · rw [h1]
    dsimp only
    rw [if_pos rfl, hc]
  · rw [h1]

/-- C8 amended witness: admin 2 runs `cb_done` on the closed ticket 1. -/
theorem C8_amended_done_on_closed_witness :
    (cbDone closedTicketStore 2 1 10).1 1 =
      some { id := 1, category := "Принтер", status := Status.closed,
             assignee := some 2, closedAt := some 5 } ∧
    (cbDone closedTicketStore 2 1 10).2 = true :=
  C8_amended_done_on_closed closedTicketStore 2 1 10
    { id := 1, category := "Принтер", status := Status.closed,
      assignee := some 1, closedAt := some 5 } 5 rfl rfl rfl

/-- A gateway behaviour whose text edit simply succeeds. -/
def gwEditOk : GatewayBehavior :=
  { editTextOutcome := EditOutcome.ok, editMarkupOk := true, newMsgId := 99 }

/-- C7: along any sequence of `_show_anchor` calls on one chat (the recorded
anchor being threaded exactly as `ADMIN_ANCHOR[admin_id] = new_id` does, so
after each call exactly one id is recorded), every call either returns the
previous anchor id, or — when a new message id becomes current — there was no
previous anchor and the call only sent, or the call attempted to delete the
previous anchor before the send that produced the new id.  No call leaves two
simultaneously live anchors. -/
theorem C7_anchor_single_liveness (chatId : Nat) (st0 : Option Nat)
    (gws : List GatewayBehavior) :
    ∀ e ∈ anchorCalls chatId st0 gws,
      e.1 = some e.2.1 ∨
      (e.1 = none ∧ e.2.2 = [AnchorAction.sendMsg chatId e.2.1]) ∨
      (∃ a, e.1 = some a ∧ retractsThenSends chatId a e.2.1 e.2.2) := by
  induction gws generalizing st0 with
  | nil =>
    intro e he
    exact absurd he (List.not_mem_nil e)
  | cons gw rest ih =>
    intro e he
    rw [anchorCalls] at he
    rcases List.mem_cons.mp he with h | h
    · subst h
      rcases st0 with _ | aid
      · right
        left
        exact ⟨rfl, rfl⟩
      · rcases hgw : gw.editTextOutcome with _ | _ | _
        · left
          simp [showAnchor, hgw]
        · by_cases hm : gw.editMarkupOk
          · left
            simp [showAnchor, hgw, hm]
          · right
            right
            refine ⟨aid, ?_, ?_⟩
            · simp [showAnchor, hgw, hm]
            · simp [showAnchor, hgw, hm, retractsThenSends]
        · right
          right
          refine ⟨aid, ?_, ?_⟩
          · simp [showAnchor, hgw]
          · simp [showAnchor, hgw, retractsThenSends]
    · exact ih (some (showAnchor gw chatId st0).1) e h

/-- C7 witness: one call on chat 7 with an existing anchor 3 and a successful
edit; the call keeps the anchor id 3. -/
theorem C7_anchor_single_liveness_witness :
    (some 3 : Option Nat) = some (showAnchor gwEditOk 7 (some 3)).1 ∨
    ((some 3 : Option Nat) = none ∧
      (showAnchor gwEditOk 7 (some 3)).2 =
        [AnchorAction.sendMsg 7 (showAnchor gwEditOk 7 (some 3)).1]) ∨
    (∃ a, (some 3 : Option Nat) = some a ∧
      retractsThenSends 7 a (showAnchor gwEditOk 7 (some 3)).1
        (showAnchor gwEditOk 7 (some 3)).2) :=
  C7_anchor_single_liveness 7 (some 3) [gwEditOk]
    ((some 3 : Option Nat), showAnchor gwEditOk 7 (some 3)) (by decide)

/-- A failure class that `call_with_retry` retries: a transient network error
or a rate limit with a server-suggested wait. -/
def transientOutcome (o : TgOutcome) : Prop :=
  o = TgOutcome.networkError ∨ ∃ w, o = TgOutcome.retryAfter w

/-- Function `call_with_retry` never performs more attempts than `max_attempts`. -/
theorem callWithRetryAux_attempts_le (g : Nat → TgOutcome) (m : Nat) :
    ∀ fuel a, a ≤ m → (callWithRetryAux g m a fuel).2.1 ≤ m := by
  intro fuel
  induction fuel with
  | zero =>
    intro a ha
    exact ha
  | succ fuel ih =>
    intro a ha
    cases hga : g a with
    | success v => simp only [callWithRetryAux, hga]; exact ha
    | forbidden => simp only [callWithRetryAux, hga]; exact ha
    | badRequestNoisy => simp only [callWithRetryAux, hga]; exact ha
    | retryAfter w =>
      simp only [callWithRetryAux, hga]
      by_cases hlt : m < a + 1
      · rw [if_pos hlt]
        exact ha
      · rw [if_neg hlt]
        exact ih (a + 1) (Nat.not_lt.mp hlt)
    | badRequestOther =>
      simp only [callWithRetryAux, hga]
      by_cases hlt : m < a + 1
      · rw [if_pos hlt]
        exact ha
      · rw [if_neg hlt]
        exact ih (a + 1) (Nat.not_lt.mp hlt)
    | networkError =>
      simp only [callWithRetryAux, hga]
      by_cases hlt : m < a + 1
      · rw [if_pos hlt]
        exact ha
      · rw [if_neg hlt]
        exact ih (a + 1) (Nat.not_lt.mp hlt)
    | unexpectedError =>
      simp only [callWithRetryAux, hga]
      by_cases hlt : m < a + 1
      · rw [if_pos hlt]
        exact ha
      · rw [if_neg hlt]
        exact ih (a + 1) (Nat.not_lt.mp hlt)

/-- When every attempt in range fails transiently, the loop walks attempt by
attempt to `max_attempts`, sleeping each server-suggested wait, and then
gives up with `none`. -/
theorem callWithRetryAux_exhaust (g : Nat → TgOutcome) (m : Nat) :
    ∀ fuel a, 1 ≤ a → a ≤ m → m + 1 ≤ a + fuel →
    (∀ i, a ≤ i → i ≤ m → transientOutcome (g i)) →
    (callWithRetryAux g m a fuel).1 = none ∧
    (callWithRetryAux g m a fuel).2.1 = m ∧
    (∀ i w, a ≤ i → i ≤ m → g i = TgOutcome.retryAfter w →
      SleepEv.serverWait w ∈ (callWithRetryAux g m a fuel).2.2) := by
  intro fuel
  induction fuel with
  | zero =>
    intro a h1 ha hfuel htr
    omega
  | succ fuel ih =>
    intro a h1 ha hfuel htr
    rcases htr a le_rfl ha with hnet | ⟨w0, hra⟩
    · simp only [callWithRetryAux, hnet]
      by_cases hlt : m < a + 1
      · rw [if_pos hlt]
        have ham : a = m := by omega
        refine ⟨rfl, ham, ?_⟩
        intro i w hi him hgi
        have hia : i = a := by omega
        rw [hia, hnet] at hgi
        exact absurd hgi (by simp)
      · rw [if_neg hlt]
        obtain ⟨hr1, hr2, hr3⟩ := ih (a + 1) (by omega) (by omega) (by omega)
          (fun i hi him => htr i (by omega) him)
        refine ⟨hr1, hr2, ?_⟩
        intro i w hi him hgi
        have hi1 : a + 1 ≤ i := by
          rcases Nat.eq_or_lt_of_le hi with h | h
          · rw [← h, hnet] at hgi
            exact absurd hgi (by simp)
          · omega
        exact List.mem_cons_of_mem _ (hr3 i w hi1 him hgi)
    · simp only [callWithRetryAux, hra]
      by_cases hlt : m < a + 1
      · rw [if_pos hlt]
        have ham : a = m := by omega
        refine ⟨rfl, ham, ?_⟩
        intro i w hi him hgi
        have hia : i = a := by omega
        rw [hia, hra] at hgi
        have hw : w0 = w := TgOutcome.retryAfter.inj hgi
        rw [← hw]
        exact List.mem_singleton_self _
      · rw [if_neg hlt]
        obtain ⟨hr1, hr2, hr3⟩ := ih (a + 1) (by omega) (by omega) (by omega)
          (fun i hi him => htr i (by omega) him)
        refine ⟨hr1, hr2, ?_⟩
        intro i w hi him hgi
        rcases Nat.eq_or_lt_of_le hi with h | h
        · rw [← h, hra] at hgi
          have hw : w0 = w := TgOutcome.retryAfter.inj hgi
          rw [← hw]
          exact List.mem_cons_self _ _
        · exact List.mem_cons_of_mem _
            (List.mem_cons_of_mem _ (hr3 i w h him hgi))

/-- C9: gateway calls through `call_with_retry` are retried a bounded number
of times — never more than `max_attempts` for any behaviour — and when every
attempt fails with a transient network or rate-limit error, the loop honours
each server-suggested wait in its sleep schedule, performs exactly
`max_attempts` attempts, and then abandons the operation by returning `none`
without raising; the attempt counter ends at the limit, so the call is never
re-attempted. -/
theorem C9_retry_bounded_then_abandoned (g : Nat → TgOutcome) (m : Nat)
    (hm : 1 ≤ m) (htr : ∀ i, 1 ≤ i → i ≤ m → transientOutcome (g i)) :
    (∀ h : Nat → TgOutcome, (callWithRetry h m).2.1 ≤ m) ∧
    (callWithRetry g m).1 = none ∧
    (callWithRetry g m).2.1 = m ∧
    (∀ i w, 1 ≤ i → i ≤ m → g i = TgOutcome.retryAfter w →
      SleepEv.serverWait w ∈ (callWithRetry g m).2.2) := by
  obtain ⟨h1, h2, h3⟩ := callWithRetryAux_exhaust g m m 1 le_rfl hm (by omega) htr
  exact ⟨fun h => callWithRetryAux_attempts_le h m m 1 hm, h1, h2, h3⟩

/-- C9 witness: the default limit of 5 attempts against a gateway that always
fails with a transient network error. -/
theorem C9_retry_bounded_then_abandoned_witness :
    (∀ h : Nat → TgOutcome,
      (callWithRetry h maxAttemptsDefault).2.1 ≤ maxAttemptsDefault) ∧
    (callWithRetry (fun _ => TgOutcome.networkError) maxAttemptsDefault).1 = none ∧
    (callWithRetry (fun _ => TgOutcome.networkError) maxAttemptsDefault).2.1 =
      maxAttemptsDefault ∧
    (∀ i w, 1 ≤ i → i ≤ maxAttemptsDefault →
      (fun _ => TgOutcome.networkError) i = TgOutcome.retryAfter w →
      SleepEv.serverWait w ∈
        (callWithRetry (fun _ => TgOutcome.networkError) maxAttemptsDefault).2.2) :=
  C9_retry_bounded_then_abandoned (fun _ => TgOutcome.networkError)
    maxAttemptsDefault (by decide) (fun i h1 h2 => Or.inl rfl)

/-- C10 witness: forgetting admin 1's cards for ticket 1 in the populated
registry leaves admin 2's slot for ticket 1 and the user notice untouched. -/
theorem C10_forget_admin_frame_witness :
    getAdminMsgs (forgetAdmin sampleNfFull 1 1) 1 2 = getAdminMsgs sampleNfFull 1 2 ∧
    (∀ u, getUserMsg (forgetAdmin sampleNfFull 1 1) u = getUserMsg sampleNfFull u) ∧
    getAdminMsgs (deleteAdminCardsIfAny sampleNfFull 1 1).1 1 2 =
      getAdminMsgs sampleNfFull 1 2 ∧
    (∀ u, getUserMsg (deleteAdminCardsIfAny sampleNfFull 1 1).1 u =
      getUserMsg sampleNfFull u) ∧
    getAdminMsgs (adminHideTaskCard sampleNfFull 1 1).1 1 2 =
      getAdminMsgs sampleNfFull 1 2 ∧
    (∀ u, getUserMsg (adminHideTaskCard sampleNfFull 1 1).1 u =
      getUserMsg sampleNfFull u) :=
  C10_forget_admin_frame sampleNfFull 1 1 1 2 (Or.inr (by decide))

end HardyBot
